import Mathlib

/-!
Verification development for the moneycure backend core: the bearer-token
authorization pipeline (token codec, identity resolver, capability guards)
and the follow-up date differ with its audit-trail writer.

Definitions are shallow embeddings of the JavaScript source:
`auth/tokens.js` (token codec), the auth middleware (`authenticate`,
`requireAdmin`, `requireStaffOrAdmin`, `requireCustomerSelf`), and the
follow-up route handlers (`PUT /customers/:id/followup`,
`POST /customers/:id/followup/done`), including `formatCommentDate`.
Stateful handler code is embedded as explicit state passing over a store
of one customer row plus its comment list, with per-query success flags
so that persistence failures can be analysed.
-/

namespace MoneyCure

/-- Identity context attached to the request by `authenticate`
(`req.user = { userId, role, customerId }`). Roles are plain strings,
as in the JavaScript source. -/
structure Identity where
  userId : String
  role : String
  customerId : Option String
deriving DecidableEq, Repr

/-- Denial reasons of the authorization pipeline (spec taxonomy). -/
inductive DenyReason
  | missingCredential
  | invalidOrExpiredCredential
  | insufficientRole
  | notSelf
deriving DecidableEq, Repr

/-- A denial: reason plus HTTP status. -/
structure Deny where
  reason : DenyReason
  status : Nat
deriving DecidableEq, Repr

/-- Result of a capability guard: pass control forward, or terminate. -/
inductive GuardResult
  | allow
  | deny (d : Deny)
deriving DecidableEq, Repr

/-- `requireAdmin` middleware: 403 unless `req.user.role === 'admin'`. -/
def requireAdmin (u : Identity) : GuardResult :=
  if u.role ≠ "admin" then .deny ⟨.insufficientRole, 403⟩ else .allow

/-- `requireStaffOrAdmin` middleware: 403 unless role is admin or staff. -/
def requireStaffOrAdmin (u : Identity) : GuardResult :=
  if u.role ≠ "admin" ∧ u.role ≠ "staff" then .deny ⟨.insufficientRole, 403⟩
  else .allow

/-- `requireCustomerSelf` middleware: allows admin and staff for any target,
allows a customer when `req.user.customerId === req.params.id`
(exact string equality, `null` never equal to a string), denies otherwise. -/
def requireCustomerSelf (u : Identity) (targetId : String) : GuardResult :=
  if u.role = "admin" ∨ u.role = "staff" then .allow
  else if u.role = "customer" ∧ u.customerId = some targetId then .allow
  else .deny ⟨.notSelf, 403⟩

/-- A guard in a route chain: pure predicate over identity and route target. -/
def GuardFn := Identity → String → GuardResult

/-- `requireAdmin` as a chain guard (ignores the route target). -/
def requireAdminG : GuardFn := fun u _ => requireAdmin u

/-- `requireStaffOrAdmin` as a chain guard (ignores the route target). -/
def requireStaffOrAdminG : GuardFn := fun u _ => requireStaffOrAdmin u

/-- `requireCustomerSelf` as a chain guard. -/
def requireCustomerSelfG : GuardFn := fun u t => requireCustomerSelf u t

/-- Run a guard chain starting at index `i`, in order. Each guard that
returns `allow` calls `next()`; a guard that denies returns its response
without calling `next()`, so no later guard is evaluated. The result is
the list of indices of the guards that were evaluated, plus the denial
(if any). -/
def runGuardsFrom : Nat → List GuardFn → Identity → String → List Nat × Option Deny
  | _, [], _, _ => ([], none)
  | i, g :: rest, u, t =>
    match g u t with
    | .allow =>
      let r := runGuardsFrom (i + 1) rest u t
      (i :: r.1, r.2)
    | .deny d => ([i], some d)

/-- Run a route: its guard chain, then the downstream handler. The `Bool`
records whether the handler body executed (it does exactly when every
guard allowed). -/
def runRoute (gs : List GuardFn) (u : Identity) (t : String) :
    Bool × List Nat × Option Deny :=
  let r := runGuardsFrom 0 gs u t
  match r.2 with
  | none => (true, r.1, none)
  | some d => (false, r.1, some d)

/-- Token payload, as signed by `createAccessToken`
(`{ userId, role, customerId }`, with `customerId ?? null`). -/
structure TokenPayload where
  userId : String
  role : String
  customerId : Option String
deriving DecidableEq, Repr

/-- Modelled from the spec: the signed token artifact produced by the
`jsonwebtoken` collaborator (not part of this repository's sources).
Per §4.1 the encoding is self-contained: the claim, an absolute expiry,
and a signature over both computed with the secret. The signature is
idealized as the authenticated triple (claim, expiry, secret). -/
structure SignedToken where
  payload : TokenPayload
  exp : Nat
  sig : TokenPayload × Nat × String
deriving DecidableEq, Repr

/-- Modelled from the spec: `jwt.sign(payload, secret, { expiresIn })` —
issuance embeds the claim and the absolute expiry `now + ttl`, signed
with the secret. Times are in seconds. -/
def jwtSign (p : TokenPayload) (secret : String) (expiresInSeconds : Nat)
    (now : Nat) : SignedToken :=
  ⟨p, now + expiresInSeconds, (p, now + expiresInSeconds, secret)⟩

/-- Modelled from the spec: `jwt.verify(token, secret)` — succeeds exactly
when the signature matches the claim and expiry under the given secret and
the current time is before the encoded absolute expiry; any failure is a
single failure (the caller cannot tell expiry from tampering apart). -/
def jwtVerify (t : SignedToken) (secret : String) (now : Nat) :
    Option TokenPayload :=
  if t.sig = (t.payload, t.exp, secret) ∧ now < t.exp then some t.payload
  else none

/-- Errors thrown by the token codec wrapper in `auth/tokens.js`. -/
inductive TokenError
  | secretNotSet
  | invalidToken
deriving DecidableEq, Repr

/-- `ensureJwtSecret`: throws when `JWT_SECRET` is falsy (unset or the
empty string). The process-wide secret is modelled as `Option String`
(`none` = environment variable not set). -/
def ensureJwtSecret (secret : Option String) : Except TokenError Unit :=
  match secret with
  | none => .error .secretNotSet
  | some s => if s = "" then .error .secretNotSet else .ok ()

/-- `ACCESS_TOKEN_EXPIRY = '7d'`, in seconds. -/
def accessTokenExpirySeconds : Nat := 7 * 24 * 60 * 60

/-- `createAccessToken(payload)`: checks the secret, then signs the payload
with the fixed 7-day expiry. -/
def createAccessToken (secret : Option String) (p : TokenPayload)
    (now : Nat) : Except TokenError SignedToken :=
  match ensureJwtSecret secret with
  | .error e => .error e
  | .ok () => .ok (jwtSign p (secret.getD "") accessTokenExpirySeconds now)

/-- `verifyAccessToken(token)`: checks the secret, then verifies; a failed
verification surfaces as the single thrown error `invalidToken`. -/
def verifyAccessToken (secret : Option String) (t : SignedToken)
    (now : Nat) : Except TokenError TokenPayload :=
  match ensureJwtSecret secret with
  | .error e => .error e
  | .ok () =>
    match jwtVerify t (secret.getD "") now with
    | some p => .ok p
    | none => .error .invalidToken

/-- JavaScript `String.prototype.startsWith`: the first characters of `s`
are exactly `p`. -/
def strStartsWith (s p : String) : Bool :=
  s.data.take p.data.length == p.data

/-- JavaScript `String.prototype.slice(n)` for a non-negative index:
drop the first `n` characters. -/
def strDrop (s : String) (n : Nat) : String :=
  ⟨s.data.drop n⟩

/-- Outcome of the `authenticate` middleware: a 401 JSON error, or the
identity context attached to the request with control passed on. -/
inductive AuthOutcome
  | denied (status : Nat) (msg : String)
  | authenticated (u : Identity)
deriving DecidableEq, Repr

/-- `authenticate` middleware: requires an `Authorization: Bearer <token>`
header; decodes the token (via the supplied decoder, which stands for
`verifyAccessToken` at the current time with the configured secret —
returning `none` for ANY decode failure); on success attaches
`{ userId, role, customerId }`. -/
def authenticate (decodeTok : String → Option TokenPayload)
    (authHeader : Option String) : AuthOutcome :=
  match authHeader with
  | none => .denied 401 "Missing or invalid authorization header"
  | some h =>
    if strStartsWith h "Bearer " then
      match decodeTok (strDrop h 7) with
      | some p => .authenticated ⟨p.userId, p.role, p.customerId⟩
      | none => .denied 401 "Invalid or expired token"
    else .denied 401 "Missing or invalid authorization header"

/-- The regex `/^\d{4}-\d{2}-\d{2}$/` from the follow-up handler:
exactly ten characters, digits in the year/month/day positions and
dashes at positions 4 and 7. -/
def matchesDatePattern (s : String) : Bool :=
  match s.data with
  | [y1, y2, y3, y4, h1, m1, m2, h2, d1, d2] =>
    y1.isDigit && y2.isDigit && y3.isDigit && y4.isDigit &&
    h1 == '-' && m1.isDigit && m2.isDigit && h2 == '-' &&
    d1.isDigit && d2.isDigit
  | _ => false

/-- Whitespace as trimmed by JavaScript `String.prototype.trim`:
TAB, LF, VT, FF, CR, space, NBSP, BOM (the common set). -/
def isJsSpace (c : Char) : Bool :=
  c == ' ' || (9 ≤ c.toNat && c.toNat ≤ 13) || c.toNat == 160 ||
  c.toNat == 65279

/-- JavaScript `String.prototype.trim`: drop `isJsSpace` characters from
both ends. -/
def jsTrim (s : String) : String :=
  ⟨((s.data.dropWhile isJsSpace).reverse.dropWhile isJsSpace).reverse⟩

/-- Decimal value of a digit string, given as a char list. -/
def digitsToNat (l : List Char) : Nat :=
  l.foldl (fun acc c => acc * 10 + (c.toNat - 48)) 0

/-- Gregorian leap-year rule, as used by the JavaScript `Date` engine. -/
def isLeapYear (y : Nat) : Bool :=
  (y % 4 == 0 && y % 100 != 0) || y % 400 == 0

/-- Days in a month of the proleptic Gregorian calendar. -/
def daysInMonth (y m : Nat) : Nat :=
  if m = 2 then (if isLeapYear y then 29 else 28)
  else if m = 4 ∨ m = 6 ∨ m = 9 ∨ m = 11 then 30
  else 31

/-- Year component of a `YYYY-MM-DD` string. -/
def dateYear (s : String) : Nat := digitsToNat (s.data.take 4)

/-- Month component of a `YYYY-MM-DD` string. -/
def dateMonth (s : String) : Nat := digitsToNat ((s.data.drop 5).take 2)

/-- Day component of a `YYYY-MM-DD` string. -/
def dateDay (s : String) : Nat := digitsToNat ((s.data.drop 8).take 2)

/-- The check `Number.isNaN(new Date(dateStr + 'T00:00:00.000Z').getTime())`
on a string that already matches the pattern: the ISO-8601 parser accepts
it exactly when month and day are in calendar range. -/
def isRealDate (s : String) : Bool :=
  1 ≤ dateMonth s && dateMonth s ≤ 12 &&
  1 ≤ dateDay s && dateDay s ≤ daysInMonth (dateYear s) (dateMonth s)

/-- A string the handler accepts as a follow-up date: matches the
`YYYY-MM-DD` pattern and denotes a real calendar date. -/
def isValidDateStr (s : String) : Bool :=
  matchesDatePattern s && isRealDate s

/-- Abbreviated English month names, as produced by
`toLocaleDateString('en-GB', { month: 'short' })`. -/
def monthName : Nat → String
  | 1 => "Jan" | 2 => "Feb" | 3 => "Mar" | 4 => "Apr"
  | 5 => "May" | 6 => "Jun" | 7 => "Jul" | 8 => "Aug"
  | 9 => "Sep" | 10 => "Oct" | 11 => "Nov" | 12 => "Dec"
  | _ => ""

/-- Rendering of a valid `YYYY-MM-DD` string by
`toLocaleDateString('en-GB', { day: 'numeric', month: 'short',
year: 'numeric' })`: day without leading zero, abbreviated month,
numeric year — e.g. `"15 Jun 2026"`. -/
def renderDate (s : String) : String :=
  toString (dateDay s) ++ " " ++ monthName (dateMonth s) ++ " " ++
  toString (dateYear s)

/-- `formatCommentDate(dateStr)`: `null` for a falsy argument or an
invalid date, otherwise the en-GB rendering. -/
def formatCommentDate (dateStr : String) : Option String :=
  if dateStr = "" then none
  else if isValidDateStr dateStr then some (renderDate dateStr)
  else none

/-- A `formatCommentDate` call spliced into a template literal: JavaScript
prints `null` as the string `"null"`. -/
def fmtTemplate (o : Option String) : String :=
  match o with
  | none => "null"
  | some s =>
    match formatCommentDate s with
    | none => "null"
    | some r => r

/-- Spec classification of a follow-up transition (§4.4 table). -/
inductive Classification
  | noChange
  | scheduled
  | cleared
  | rescheduled
deriving DecidableEq, Repr

/-- The comment text chosen by the handler once `previousDate !== newDate`:
`newDate` null (or empty) → cleared; `previousDate` null (or empty) →
scheduled; otherwise rescheduled. Branch order as in the source. -/
def followupCommentText (previousDate newDate : Option String) : String :=
  if newDate = none ∨ newDate = some "" then "Follow-up cleared."
  else if previousDate = none ∨ previousDate = some "" then
    "Follow-up scheduled for " ++ fmtTemplate newDate ++ "."
  else
    "Follow-up date changed from " ++ fmtTemplate previousDate ++ " to " ++
    fmtTemplate newDate ++ "."

/-- The follow-up state differ: classification of the `(previous, next)`
pair and the audit narrative (none exactly when nothing changed). -/
def followupDiff (previousDate newDate : Option String) :
    Classification × Option String :=
  if previousDate = newDate then (.noChange, none)
  else if newDate = none ∨ newDate = some "" then
    (.cleared, some (followupCommentText previousDate newDate))
  else if previousDate = none ∨ previousDate = some "" then
    (.scheduled, some (followupCommentText previousDate newDate))
  else (.rescheduled, some (followupCommentText previousDate newDate))

/-- The customer row slice the handlers touch: `next_followup_date`. -/
structure CustomerRow where
  followup : Option String
deriving DecidableEq, Repr

/-- Backing store for one customer record: the row (none = no such
customer) and its `customer_comments`, in insertion order. Each
successful query autocommits immediately (no transaction in the source). -/
structure Store where
  customer : Option CustomerRow
  comments : List String
deriving DecidableEq, Repr

/-- Injected outcome of each query of the follow-up update handler:
the SELECT of the previous value, the UPDATE, and the audit INSERT.
`false` means the query throws (persistence failure). -/
structure QueryPlan where
  selectOk : Bool
  updateOk : Bool
  insertOk : Bool
deriving DecidableEq, Repr

/-- HTTP-level response of a handler. -/
inductive Resp
  | badRequest (msg : String)
  | notFound
  | serverError (msg : String)
  | okRow (row : CustomerRow)
deriving DecidableEq, Repr

/-- Full observable outcome of a handler run: the response, the store
state after the run, and how many store queries were attempted. -/
structure HandlerOutcome where
  resp : Resp
  store : Store
  queriesRun : Nat
deriving DecidableEq, Repr

/-- `previousDate` as computed by the handler from the selected row:
falsy (null or empty) becomes null, otherwise `String(...).slice(0, 10)`. -/
def storedPreviousDate (row : CustomerRow) : Option String :=
  match row.followup with
  | none => none
  | some p => if p = "" then none else some ⟨p.data.take 10⟩

/-- Body of `PUT /customers/:id/followup` after validation, with `value`
the normalized new date: SELECT the previous value, UPDATE the row
(autocommit), then — when `previousDate !== newDate` — INSERT the audit
comment. A throwing query is caught and surfaced as a 500, leaving the
already-committed writes in place. -/
def updateFollowupCore (plan : QueryPlan) (st : Store)
    (value : Option String) : HandlerOutcome :=
  if ¬ plan.selectOk then
    ⟨.serverError "Failed to update follow-up date", st, 1⟩
  else
    match st.customer with
    | none => ⟨.notFound, st, 1⟩
    | some row =>
      let previousDate := storedPreviousDate row
      let newDate := value
      if ¬ plan.updateOk then
        ⟨.serverError "Failed to update follow-up date", st, 2⟩
      else
        let row2 : CustomerRow := ⟨value⟩
        let st2 : Store := ⟨some row2, st.comments⟩
        if previousDate = newDate then ⟨.okRow row2, st2, 2⟩
        else
          if ¬ plan.insertOk then
            ⟨.serverError "Failed to update follow-up date", st2, 3⟩
          else
            ⟨.okRow row2,
             ⟨some row2,
              st.comments ++ [followupCommentText previousDate newDate]⟩,
             3⟩

/-- `PUT /customers/:id/followup`: when `next_followup_date` is neither
null nor undefined, trim it and validate (pattern, then real calendar
date), rejecting with a 400 before any store interaction; then run the
core with the trimmed value (or null). -/
def updateFollowup (plan : QueryPlan) (st : Store) (next : Option String) :
    HandlerOutcome :=
  match next with
  | none => updateFollowupCore plan st none
  | some s =>
    let dateStr := jsTrim s
    if ¬ matchesDatePattern dateStr then
      ⟨.badRequest "next_followup_date must be YYYY-MM-DD or null", st, 0⟩
    else if ¬ isRealDate dateStr then
      ⟨.badRequest "next_followup_date is not a valid date", st, 0⟩
    else updateFollowupCore plan st (some (jsTrim s))

/-- Injected outcome of each query of the mark-done handler: the UPDATE
setting the date to NULL, and the audit INSERT. -/
structure DonePlan where
  updateOk : Bool
  insertOk : Bool
deriving DecidableEq, Repr

/-- `POST /customers/:id/followup/done`: unconditionally UPDATE
`next_followup_date` to NULL (404 when the row does not exist), then
unconditionally INSERT the fixed comment `"Follow-up marked as done."` —
the previous value is never read. -/
def markFollowupDone (plan : DonePlan) (st : Store) : HandlerOutcome :=
  if ¬ plan.updateOk then
    ⟨.serverError "Failed to mark follow-up done", st, 1⟩
  else
    match st.customer with
    | none => ⟨.notFound, st, 1⟩
    | some _ =>
      let row2 : CustomerRow := ⟨none⟩
      let st2 : Store := ⟨some row2, st.comments⟩
      if ¬ plan.insertOk then
        ⟨.serverError "Failed to mark follow-up done", st2, 2⟩
      else
        ⟨.okRow row2,
         ⟨some row2, st.comments ++ ["Follow-up marked as done."]⟩, 2⟩

/-- A string accepted as a follow-up date is non-empty. -/
theorem validDate_ne_empty (s : String) (h : isValidDateStr s = true) :
    s ≠ "" := by
  intro he
  subst he
  exact absurd h (by decide)

/-- Splicing a valid date into a template renders it with `renderDate`. -/
theorem fmtTemplate_valid (s : String) (h : isValidDateStr s = true) :
    fmtTemplate (some s) = renderDate s := by
  have hne : s ≠ "" := validDate_ne_empty s h
  simp [fmtTemplate, formatCommentDate, hne, h]

/-- C2: for every identity context and target id from the route path,
`requireCustomerSelf` allows role admin or staff regardless of target,
allows role customer exactly when `customerId` is string-equal to the
target id, and otherwise denies with reason `notSelf` and HTTP 403. -/
theorem requireCustomerSelf_spec (u : Identity) (targetId : String) :
    ((u.role = "admin" ∨ u.role = "staff") →
      requireCustomerSelf u targetId = .allow) ∧
    (u.role = "customer" → u.customerId = some targetId →
      requireCustomerSelf u targetId = .allow) ∧
    (¬ (u.role = "admin" ∨ u.role = "staff") →
      ¬ (u.role = "customer" ∧ u.customerId = some targetId) →
      requireCustomerSelf u targetId = .deny ⟨.notSelf, 403⟩) := by
  refine ⟨fun h => ?_, fun h1 h2 => ?_, fun h1 h2 => ?_⟩
  · simp [requireCustomerSelf, h]
  · simp [requireCustomerSelf, h1, h2]
  · simp [requireCustomerSelf, h1, h2]

/-- Witness for C2: a staff member reaches any customer, a customer
reaches itself, a customer is denied another customer's id with 403. -/
theorem requireCustomerSelf_spec_witness :
    requireCustomerSelf ⟨"u1", "staff", none⟩ "c1" = .allow ∧
    requireCustomerSelf ⟨"u2", "customer", some "c1"⟩ "c1" = .allow ∧
    requireCustomerSelf ⟨"u3", "customer", some "c1"⟩ "c2" =
      .deny ⟨.notSelf, 403⟩ :=
  ⟨(requireCustomerSelf_spec ⟨"u1", "staff", none⟩ "c1").1 (Or.inr rfl),
   (requireCustomerSelf_spec ⟨"u2", "customer", some "c1"⟩ "c1").2.1 rfl rfl,
   (requireCustomerSelf_spec ⟨"u3", "customer", some "c1"⟩ "c2").2.2
     (by decide) (by decide)⟩

/-- C4: `authenticate` applies its rules in order — missing or
non-`Bearer ` header denies 401 with the missing-credential message; a
present token whose decode fails (for ANY reason: the decoder is
arbitrary) denies 401 with the single collapsed invalid-or-expired
message; otherwise the identity context is attached and control passes
on. -/
theorem authenticate_spec (decodeTok : String → Option TokenPayload)
    (h : String) :
    authenticate decodeTok none =
      .denied 401 "Missing or invalid authorization header" ∧
    (strStartsWith h "Bearer " = false →
      authenticate decodeTok (some h) =
        .denied 401 "Missing or invalid authorization header") ∧
    (strStartsWith h "Bearer " = true → decodeTok (strDrop h 7) = none →
      authenticate decodeTok (some h) =
        .denied 401 "Invalid or expired token") ∧
    (∀ p, strStartsWith h "Bearer " = true →
      decodeTok (strDrop h 7) = some p →
      authenticate decodeTok (some h) =
        .authenticated ⟨p.userId, p.role, p.customerId⟩) := by
  refine ⟨rfl, fun hs => ?_, fun hs hd => ?_, fun p hs hd => ?_⟩
  · simp [authenticate, hs]
  · simp [authenticate, hs, hd]
  · simp [authenticate, hs, hd]

/-- Witness for C4: a Basic header is rejected as missing credential, a
Bearer token that fails decoding yields the collapsed 401, and a decoding
token attaches the identity. -/
theorem authenticate_spec_witness :
    authenticate (fun _ => none) (some "Basic abc") =
      .denied 401 "Missing or invalid authorization header" ∧
    authenticate (fun _ => none) (some "Bearer abc") =
      .denied 401 "Invalid or expired token" ∧
    authenticate (fun _ => some ⟨"u1", "admin", none⟩) (some "Bearer abc") =
      .authenticated ⟨"u1", "admin", none⟩ :=
  ⟨(authenticate_spec (fun _ => none) "Basic abc").2.1 (by decide),
   (authenticate_spec (fun _ => none) "Bearer abc").2.2.1 (by decide) rfl,
   (authenticate_spec (fun _ => some ⟨"u1", "admin", none⟩) "Bearer abc").2.2.2
     ⟨"u1", "admin", none⟩ (by decide) rfl⟩

/-- C9: an absent signing secret makes the first token operation — issue
or decode — fail with the fatal configuration error; a configured
non-empty secret never produces that error. -/
theorem jwt_secret_required (p : TokenPayload) (t : SignedToken)
    (now issueTime : Nat) :
    createAccessToken none p issueTime = .error .secretNotSet ∧
    verifyAccessToken none t now = .error .secretNotSet ∧
    (∀ s : String, s ≠ "" →
      createAccessToken (some s) p issueTime =
        .ok (jwtSign p s accessTokenExpirySeconds issueTime) ∧
      verifyAccessToken (some s) t now ≠ .error .secretNotSet) := by
  refine ⟨rfl, rfl, fun s hs => ⟨?_, ?_⟩⟩
  · simp [createAccessToken, ensureJwtSecret, hs]
  · cases hvr : jwtVerify t s now <;>
      simp [verifyAccessToken, ensureJwtSecret, hs, hvr]

/-- Witness for C9: issuing with no secret fails fatally; a configured
secret verifies without the configuration error. -/
theorem jwt_secret_required_witness :
    createAccessToken none ⟨"u1", "admin", none⟩ 0 = .error .secretNotSet ∧
    verifyAccessToken (some "s3cr3t")
        (jwtSign ⟨"u1", "admin", none⟩ "s3cr3t" 10 0) 5 ≠
      .error .secretNotSet := by
  have h := jwt_secret_required ⟨"u1", "admin", none⟩
    (jwtSign ⟨"u1", "admin", none⟩ "s3cr3t" 10 0) 5 0
  exact ⟨h.1, (h.2.2 "s3cr3t" (by decide)).2⟩

/-- C3: decoding a token issued with secret `s` and ttl returns exactly
the claim at any time before the ttl elapses; once the ttl has elapsed
decoding fails; a different secret fails identically; and every decode
failure surfaces through `verifyAccessToken` as the single
`invalidToken` error (signature mismatch indistinguishable from expiry).
`createAccessToken` is this issuance at the fixed 7-day ttl. -/
theorem token_roundtrip (p : TokenPayload) (s s2 : String)
    (ttl issueTime now : Nat) (hs : s ≠ "") (hs2 : s ≠ s2) :
    (now < issueTime + ttl →
      jwtVerify (jwtSign p s ttl issueTime) s now = some p) ∧
    (issueTime + ttl ≤ now →
      jwtVerify (jwtSign p s ttl issueTime) s now = none) ∧
    jwtVerify (jwtSign p s ttl issueTime) s2 now = none ∧
    createAccessToken (some s) p issueTime =
      .ok (jwtSign p s accessTokenExpirySeconds issueTime) ∧
    (∀ t, jwtVerify t s now = none →
      verifyAccessToken (some s) t now = .error .invalidToken) := by
  refine ⟨fun h => ?_, fun h => ?_, ?_, ?_, fun t hv => ?_⟩
  · simp [jwtSign, jwtVerify, h]
  · simp [jwtSign, jwtVerify, Nat.not_lt.mpr h]
  · simp [jwtSign, jwtVerify, hs2]
  · simp [createAccessToken, ensureJwtSecret, hs]
  · simp [verifyAccessToken, ensureJwtSecret, hs, hv]

/-- Witness for C3: a concrete round trip before expiry, the expiry
cutoff, and the wrong-secret failure. -/
theorem token_roundtrip_witness :
    jwtVerify (jwtSign ⟨"u1", "admin", none⟩ "s3cr3t" 100 0) "s3cr3t" 50 =
      some ⟨"u1", "admin", none⟩ ∧
    jwtVerify (jwtSign ⟨"u1", "admin", none⟩ "s3cr3t" 100 0) "s3cr3t" 100 =
      none ∧
    jwtVerify (jwtSign ⟨"u1", "admin", none⟩ "s3cr3t" 100 0) "other" 50 =
      none := by
  have h := token_roundtrip ⟨"u1", "admin", none⟩ "s3cr3t" "other" 100 0 50
    (by decide) (by decide)
  have h2 := token_roundtrip ⟨"u1", "admin", none⟩ "s3cr3t" "other" 100 0 100
    (by decide) (by decide)
  exact ⟨h.1 (by decide), h2.2.1 (by decide), h.2.2.1⟩

/-- A guard chain with only allowing guards before a denying guard stops
at the denying guard: evaluated indices are exactly `i .. i + pre.length`. -/
theorem runGuardsFrom_short_circuit (u : Identity) (t : String) (d : Deny)
    (g : GuardFn) (post : List GuardFn) (hg : g u t = .deny d) :
    ∀ (pre : List GuardFn) (i : Nat), (∀ g2 ∈ pre, g2 u t = .allow) →
      runGuardsFrom i (pre ++ g :: post) u t =
        (List.range' i (pre.length + 1), some d) := by
  intro pre
  induction pre with
  | nil =>
    intro i _
    simp [runGuardsFrom, hg, List.range']
  | cons g0 pre ih =>
    intro i hpre
    have h0 : g0 u t = .allow := hpre g0 (by simp)
    have h1 := ih (i + 1) (fun g2 hm => hpre g2 (by simp [hm]))
    simp [runGuardsFrom, h0, h1, List.range']

/-- C8: when a guard in a route's chain denies (after guards that allow),
the chain terminates immediately — the guards after it are never
evaluated and the downstream handler does not execute. -/
theorem guard_chain_short_circuits (pre post : List GuardFn) (g : GuardFn)
    (u : Identity) (t : String) (d : Deny)
    (hpre : ∀ g2 ∈ pre, g2 u t = .allow) (hg : g u t = .deny d) :
    runRoute (pre ++ g :: post) u t =
      (false, List.range (pre.length + 1), some d) := by
  have h := runGuardsFrom_short_circuit u t d g post hg pre 0 hpre
  simp [runRoute, h, List.range_eq_range']

/-- Witness for C8: in the chain `[requireStaffOrAdmin, requireAdmin,
requireCustomerSelf]` a staff identity passes the first guard, is denied
by `requireAdmin`, and `requireCustomerSelf` (index 2) is never
evaluated; the handler does not run. -/
theorem guard_chain_short_circuits_witness :
    runRoute [requireStaffOrAdminG, requireAdminG, requireCustomerSelfG]
        ⟨"u1", "staff", none⟩ "c9" =
      (false, [0, 1], some ⟨.insufficientRole, 403⟩) := by
  have hpre : ∀ g2 ∈ [requireStaffOrAdminG],
      g2 (⟨"u1", "staff", none⟩ : Identity) "c9" = .allow := by
    intro g2 hm
    rw [List.mem_singleton] at hm
    subst hm
    decide
  have hg : requireAdminG ⟨"u1", "staff", none⟩ "c9" =
      .deny ⟨.insufficientRole, 403⟩ := by decide
  have h := guard_chain_short_circuits [requireStaffOrAdminG]
    [requireCustomerSelfG] requireAdminG ⟨"u1", "staff", none⟩ "c9"
    ⟨.insufficientRole, 403⟩ hpre hg
  exact h.trans (by decide)

/-- When something changed, the differ's narrative is the handler's
comment text. -/
theorem followupDiff_snd (p v : Option String) (h : p ≠ v) :
    (followupDiff p v).2 = some (followupCommentText p v) := by
  simp only [followupDiff]
  rw [if_neg h]
  split_ifs <;> rfl

/-- C1: the diff of (previous, next) follows the spec table and the
handler appends an audit entry exactly when the classification is not
`noChange`: null/null and D/D are `noChange` with no entry; null/D is
`scheduled` with "Follow-up scheduled for {D}."; D/null is `cleared` with
"Follow-up cleared."; D1/D2 is `rescheduled` with "Follow-up date changed
from {D1} to {D2}." — dates rendered day, abbreviated month, numeric
year ("2026-06-15" as "15 Jun 2026", "2026-07-01" as "1 Jul 2026"). -/
theorem followup_diff_table (D D1 D2 : String)
    (hD : isValidDateStr D = true) (hD1 : isValidDateStr D1 = true)
    (hD2 : isValidDateStr D2 = true) (hne : D1 ≠ D2) :
    followupDiff none none = (.noChange, none) ∧
    followupDiff none (some D) =
      (.scheduled, some ("Follow-up scheduled for " ++ renderDate D ++ ".")) ∧
    followupDiff (some D) none = (.cleared, some "Follow-up cleared.") ∧
    followupDiff (some D) (some D) = (.noChange, none) ∧
    followupDiff (some D1) (some D2) =
      (.rescheduled,
       some ("Follow-up date changed from " ++ renderDate D1 ++ " to " ++
             renderDate D2 ++ ".")) ∧
    renderDate "2026-06-15" = "15 Jun 2026" ∧
    renderDate "2026-07-01" = "1 Jul 2026" ∧
    (∀ (st : Store) (row : CustomerRow) (value : Option String),
      st.customer = some row →
      (updateFollowupCore ⟨true, true, true⟩ st value).store.comments =
        st.comments ++
          ((followupDiff (storedPreviousDate row) value).2).toList) := by
  have hDe : D ≠ "" := validDate_ne_empty D hD
  have hD1e : D1 ≠ "" := validDate_ne_empty D1 hD1
  have hD2e : D2 ≠ "" := validDate_ne_empty D2 hD2
  refine ⟨rfl, ?_, ?_, ?_, ?_, by decide, by decide, ?_⟩
  · simp [followupDiff, followupCommentText, fmtTemplate_valid D hD, hDe]
  · simp [followupDiff, followupCommentText]
  · simp [followupDiff]
  · simp [followupDiff, followupCommentText, fmtTemplate_valid D1 hD1,
      fmtTemplate_valid D2 hD2, hD1e, hD2e, hne]
  · intro st row value hc
    by_cases hpv : storedPreviousDate row = value
    · simp [updateFollowupCore, hc, hpv, followupDiff]
    · simp [updateFollowupCore, hc, hpv, followupDiff_snd _ _ hpv]

/-- Witness for C1: the concrete reschedule from 15 Jun 2026 to
1 Jul 2026 carries the exact narrative. -/
theorem followup_diff_table_witness :
    followupDiff (some "2026-06-15") (some "2026-07-01") =
      (.rescheduled,
       some "Follow-up date changed from 15 Jun 2026 to 1 Jul 2026.") := by
  have h := followup_diff_table "2026-06-15" "2026-06-15" "2026-07-01"
    (by decide) (by decide) (by decide) (by decide)
  exact h.2.2.2.2.1.trans (by decide)

/-- C5 counterexample: the state mutation and the audit append are two
separate autocommitted queries. With the audit INSERT failing after the
UPDATE committed, the handler returns a 500 yet the new follow-up value
is observably committed alone, with no audit entry — the pair did not
roll back as a unit. -/
theorem followup_update_not_atomic :
    updateFollowup ⟨true, true, false⟩ ⟨some ⟨none⟩, []⟩
        (some "2026-06-15") =
      ⟨.serverError "Failed to update follow-up date",
       ⟨some ⟨some "2026-06-15"⟩, []⟩, 3⟩ := by decide

/-- C5 amended: a persistence failure during the unit is surfaced as a
500-class error, but the halves are not atomic — when the audit INSERT
fails the already-committed state mutation remains alone; when every
query succeeds both halves commit. -/
theorem followup_update_commit_behavior (st : Store) (row : CustomerRow)
    (D : String) (hc : st.customer = some row)
    (hv : isValidDateStr D = true) (htrim : jsTrim D = D)
    (hch : storedPreviousDate row ≠ some D) :
    updateFollowup ⟨true, true, false⟩ st (some D) =
      ⟨.serverError "Failed to update follow-up date",
       ⟨some ⟨some D⟩, st.comments⟩, 3⟩ ∧
    updateFollowup ⟨true, true, true⟩ st (some D) =
      ⟨.okRow ⟨some D⟩,
       ⟨some ⟨some D⟩,
        st.comments ++
          [followupCommentText (storedPreviousDate row) (some D)]⟩,
       3⟩ := by
  obtain ⟨hp, hr⟩ : matchesDatePattern D = true ∧ isRealDate D = true := by
    simpa [isValidDateStr] using hv
  constructor
  · simp [updateFollowup, htrim, hp, hr, updateFollowupCore, hc, hch]
  · simp [updateFollowup, htrim, hp, hr, updateFollowupCore, hc, hch]

/-- Witness for C5 amended: rescheduling a concrete record with the
audit INSERT failing leaves the new date committed and returns 500. -/
theorem followup_update_commit_behavior_witness :
    updateFollowup ⟨true, true, false⟩ ⟨some ⟨some "2026-06-15"⟩, []⟩
        (some "2026-07-01") =
      ⟨.serverError "Failed to update follow-up date",
       ⟨some ⟨some "2026-07-01"⟩, []⟩, 3⟩ := by
  have h := followup_update_commit_behavior ⟨some ⟨some "2026-06-15"⟩, []⟩
    ⟨some "2026-06-15"⟩ "2026-07-01" rfl (by decide) (by decide) (by decide)
  exact h.1.trans (by decide)

/-- C6 counterexample: marking done on a record whose follow-up is
already null still appends the audit entry — the handler does not
observe a null-to-null `noChange`. -/
theorem mark_done_appends_on_null :
    markFollowupDone ⟨true, true⟩ ⟨some ⟨none⟩, []⟩ =
      ⟨.okRow ⟨none⟩, ⟨some ⟨none⟩, ["Follow-up marked as done."]⟩, 2⟩ := by
  decide

/-- C6 amended: the mark-done handler is not routed through the differ —
it never reads the previous value, unconditionally clears the field, and
always appends the fixed narrative "Follow-up marked as done.", also when
the previous value was already null. -/
theorem mark_done_unconditional (st : Store) (row : CustomerRow)
    (hc : st.customer = some row) :
    markFollowupDone ⟨true, true⟩ st =
      ⟨.okRow ⟨none⟩,
       ⟨some ⟨none⟩, st.comments ++ ["Follow-up marked as done."]⟩, 2⟩ := by
  simp [markFollowupDone, hc]

/-- Witness for C6 amended: a record with a scheduled date is cleared and
gets the fixed narrative. -/
theorem mark_done_unconditional_witness :
    markFollowupDone ⟨true, true⟩ ⟨some ⟨some "2026-06-15"⟩, []⟩ =
      ⟨.okRow ⟨none⟩, ⟨some ⟨none⟩, ["Follow-up marked as done."]⟩, 2⟩ := by
  have h := mark_done_unconditional ⟨some ⟨some "2026-06-15"⟩, []⟩
    ⟨some "2026-06-15"⟩ rfl
  exact h.trans (by decide)

/-- C7: a non-null next value that (after trimming) does not match the
date pattern, or is not a real calendar date, is rejected with a 400
before any store interaction: the store is unchanged and zero queries
ran. The spec's examples: "15-06-2026" fails the pattern, "2026-13-40"
matches the pattern but is not a real date. -/
theorem invalid_date_rejected (plan : QueryPlan) (st : Store) (s : String) :
    (matchesDatePattern (jsTrim s) = false →
      updateFollowup plan st (some s) =
        ⟨.badRequest "next_followup_date must be YYYY-MM-DD or null",
         st, 0⟩) ∧
    (matchesDatePattern (jsTrim s) = true → isRealDate (jsTrim s) = false →
      updateFollowup plan st (some s) =
        ⟨.badRequest "next_followup_date is not a valid date", st, 0⟩) ∧
    matchesDatePattern (jsTrim "15-06-2026") = false ∧
    matchesDatePattern (jsTrim "2026-13-40") = true ∧
    isRealDate (jsTrim "2026-13-40") = false := by
  refine ⟨fun hp => ?_, fun hp hr => ?_, by decide, by decide, by decide⟩
  · simp [updateFollowup, hp]
  · simp [updateFollowup, hp, hr]

/-- Witness for C7: both malformed examples are rejected with 400, the
store untouched. -/
theorem invalid_date_rejected_witness :
    updateFollowup ⟨true, true, true⟩ ⟨some ⟨none⟩, []⟩
        (some "15-06-2026") =
      ⟨.badRequest "next_followup_date must be YYYY-MM-DD or null",
       ⟨some ⟨none⟩, []⟩, 0⟩ ∧
    updateFollowup ⟨true, true, true⟩ ⟨some ⟨none⟩, []⟩
        (some "2026-13-40") =
      ⟨.badRequest "next_followup_date is not a valid date",
       ⟨some ⟨none⟩, []⟩, 0⟩ :=
  ⟨(invalid_date_rejected ⟨true, true, true⟩ ⟨some ⟨none⟩, []⟩
      "15-06-2026").1 (by decide),
   (invalid_date_rejected ⟨true, true, true⟩ ⟨some ⟨none⟩, []⟩
      "2026-13-40").2.1 (by decide) (by decide)⟩

/-- C10: the handler trims the string next value before validation,
comparison and storage: any input whose trim is a valid date D is
accepted (it reaches the post-validation core with D) and behaves
identically to D itself. -/
theorem whitespace_trim_equiv (plan : QueryPlan) (st : Store) (s D : String)
    (ht : jsTrim s = D) (hD : jsTrim D = D) (hv : isValidDateStr D = true) :
    updateFollowup plan st (some s) = updateFollowupCore plan st (some D) ∧
    updateFollowup plan st (some s) = updateFollowup plan st (some D) := by
  obtain ⟨hp, hr⟩ : matchesDatePattern D = true ∧ isRealDate D = true := by
    simpa [isValidDateStr] using hv
  constructor
  · simp [updateFollowup, ht, hp, hr]
  · simp [updateFollowup, ht, hD, hp, hr]

/-- Witness for C10: "  2026-06-15 " behaves exactly as "2026-06-15". -/
theorem whitespace_trim_equiv_witness :
    updateFollowup ⟨true, true, true⟩ ⟨some ⟨none⟩, []⟩
        (some "  2026-06-15 ") =
      updateFollowup ⟨true, true, true⟩ ⟨some ⟨none⟩, []⟩
        (some "2026-06-15") :=
  (whitespace_trim_equiv ⟨true, true, true⟩ ⟨some ⟨none⟩, []⟩
    "  2026-06-15 " "2026-06-15" (by decide) (by decide) (by decide)).2

end MoneyCure
